import Mathlib

/-!
Verification of the AI Transformation Orchestration Engine of the wurdump
repository (src/services/aiService.ts, src/components/ClipboardPanel.tsx).

The TypeScript code is shallowly embedded: JavaScript strings become Lean
`String`, JavaScript numbers become `ℚ` (the scoring arithmetic stays in the
exactly representable decimals 0.1 .. 1.0, so rational arithmetic agrees with
the source), and each network interaction (fetch to the Ollama backend) is
replaced by an explicit oracle argument describing the outcome the network
would have produced, indexed by the sequence number of the call.
-/

namespace Wurdump

/-! ## JavaScript string primitives

The source relies on `String.prototype.includes`, `toLowerCase`, `trim` and
`split(/\W+/)`.  They are modelled over `List Char` / `String` with the exact
ECMAScript semantics the engine depends on (ASCII case folding, `\w` =
`[A-Za-z0-9_]`, `split` keeping the empty fragments at either end).
-/

/-- True when `needle` occurs at the very start of `hay`. -/
def leadsWith : List Char → List Char → Bool
  | _, [] => true
  | [], _ :: _ => false
  | c :: cs, d :: ds => c == d && leadsWith cs ds

/-- JavaScript `hay.includes(needle)`: `needle` occurs contiguously in `hay`. -/
def hasSub : List Char → List Char → Bool
  | [], needle => needle.isEmpty
  | c :: cs, needle => leadsWith (c :: cs) needle || hasSub cs needle

/-- JavaScript `hay.includes(needle)` on `String`. -/
def jsIncludes (hay needle : String) : Bool :=
  hasSub hay.data needle.data

/-- Word characters of the regexp `\w`, i.e. `[A-Za-z0-9_]`. -/
def isWordChar (c : Char) : Bool :=
  c.isAlphanum || c == '_'

/-- Whitespace recognised by JavaScript `trim` (the ASCII part, which is all
the engine ever feeds it). -/
def jsSpace (c : Char) : Bool :=
  c == ' ' || c == '\t' || c == '\n' || c == '\r' || c == '\x0b' || c == '\x0c'

/-- JavaScript `s.trim()`. -/
def jsTrim (s : String) : String :=
  ⟨((s.data.dropWhile jsSpace).reverse.dropWhile jsSpace).reverse⟩

/-- JavaScript `s.toLowerCase()` (ASCII case folding). -/
def jsToLower (s : String) : String :=
  ⟨s.data.map Char.toLower⟩

/-- Single pass of `split(/\W+/)`.  `inWord` says whether we are inside a
word run (whose characters, reversed, are in `acc`); while skipping a
separator run `acc` is empty, so both modes emit `acc.reverse` at the end of
the input (the trailing empty fragment after a trailing separator run). -/
def splitGo : Bool → List Char → List Char → List (List Char)
  | _, [], acc => [acc.reverse]
  | inWord, c :: rest, acc =>
    if isWordChar c then
      if inWord then splitGo true rest (c :: acc)
      else splitGo true rest [c]
    else
      if inWord then acc.reverse :: splitGo false rest []
      else splitGo false rest acc

/-- JavaScript `s.split(/\W+/)`: fragments between maximal runs of non-word
characters, keeping the empty fragment produced by a leading or trailing
separator run (and the single empty fragment of the empty string). -/
def splitNonWord (s : String) : List (List Char) :=
  splitGo true s.data []

/-! ## JSON well-formedness (`JSON.parse` as used by `looksLikeJson`)

`looksLikeJson` only asks whether `JSON.parse` succeeds, so the parse result
is irrelevant; each parsing function returns the unconsumed remainder on
success.  Recursion into nested values is bounded by explicit fuel.
-/

/-- Left-brace character, kept out of literals. -/
def lbrace : Char := Char.ofNat 123

/-- Right-brace character, kept out of literals. -/
def rbrace : Char := Char.ofNat 125

/-- JSON insignificant whitespace. -/
def jsonWs (c : Char) : Bool :=
  c == ' ' || c == '\t' || c == '\n' || c == '\r'

/-- Drop leading JSON whitespace. -/
def skipWs (s : List Char) : List Char :=
  s.dropWhile jsonWs

/-- Hexadecimal digit test for `\uXXXX` escapes. -/
def isHexDigit (c : Char) : Bool :=
  c.isDigit || ('a' ≤ c && c ≤ 'f') || ('A' ≤ c && c ≤ 'F')

/-- Body of a JSON string after the opening quote; returns the remainder
after the closing quote. -/
def parseStringBody : List Char → Option (List Char)
  | [] => none
  | c :: rest =>
    if c == '"' then some rest
    else if c == '\\' then
      match rest with
      | [] => none
      | e :: rest2 =>
        if e == 'u' then
          match rest2 with
          | a :: b :: c2 :: d :: rest3 =>
            if isHexDigit a && isHexDigit b && isHexDigit c2 && isHexDigit d then
              parseStringBody rest3
            else none
          | _ => none
        else if e == '"' || e == '\\' || e == '/' || e == 'b' || e == 'f' ||
            e == 'n' || e == 'r' || e == 't' then
          parseStringBody rest2
        else none
    else if c.toNat < 32 then none
    else parseStringBody rest

/-- One or more decimal digits. -/
def parseDigits : List Char → Option (List Char)
  | c :: rest => if c.isDigit then some (rest.dropWhile Char.isDigit) else none
  | [] => none

/-- Integer part of a JSON number: `0` or a nonzero digit followed by digits. -/
def parseIntPart : List Char → Option (List Char)
  | c :: rest =>
    if c == '0' then some rest
    else if c.isDigit then some (rest.dropWhile Char.isDigit)
    else none
  | [] => none

/-- Optional fractional part. -/
def parseFrac : List Char → Option (List Char)
  | c :: rest => if c == '.' then parseDigits rest else some (c :: rest)
  | [] => some []

/-- Optional exponent part. -/
def parseExpPart : List Char → Option (List Char)
  | c :: rest =>
    if c == 'e' || c == 'E' then
      match rest with
      | d :: rest2 => if d == '+' || d == '-' then parseDigits rest2 else parseDigits (d :: rest2)
      | [] => none
    else some (c :: rest)
  | [] => some []

/-- A complete JSON number. -/
def parseNumber (s : List Char) : Option (List Char) := do
  let s := match s with
    | c :: rest => if c == '-' then rest else c :: rest
    | [] => []
  let s ← parseIntPart s
  let s ← parseFrac s
  parseExpPart s

mutual

/-- A JSON value (object, array, string, number, `true`, `false`, `null`). -/
def parseValue : Nat → List Char → Option (List Char)
  | 0, _ => none
  | fuel + 1, s =>
    match skipWs s with
    | [] => none
    | c :: rest =>
      if c == '"' then parseStringBody rest
      else if c == lbrace then
        match skipWs rest with
        | [] => none
        | d :: rest2 => if d == rbrace then some rest2 else parseMembers fuel (d :: rest2)
      else if c == '[' then
        match skipWs rest with
        | [] => none
        | d :: rest2 => if d == ']' then some rest2 else parseItems fuel (d :: rest2)
      else if leadsWith (c :: rest) "true".data then some ((c :: rest).drop 4)
      else if leadsWith (c :: rest) "false".data then some ((c :: rest).drop 5)
      else if leadsWith (c :: rest) "null".data then some ((c :: rest).drop 4)
      else if c == '-' || c.isDigit then parseNumber (c :: rest)
      else none

/-- Nonempty member list of a JSON object, through the closing brace. -/
def parseMembers : Nat → List Char → Option (List Char)
  | 0, _ => none
  | fuel + 1, s =>
    match skipWs s with
    | [] => none
    | c :: rest =>
      if c == '"' then
        match parseStringBody rest with
        | none => none
        | some s1 =>
          match skipWs s1 with
          | [] => none
          | k :: s2 =>
            if k == ':' then
              match parseValue fuel s2 with
              | none => none
              | some s3 =>
                match skipWs s3 with
                | [] => none
                | m :: s4 =>
                  if m == ',' then parseMembers fuel s4
                  else if m == rbrace then some s4
                  else none
            else none
      else none

/-- Nonempty item list of a JSON array, through the closing bracket. -/
def parseItems : Nat → List Char → Option (List Char)
  | 0, _ => none
  | fuel + 1, s =>
    match parseValue fuel s with
    | none => none
    | some s1 =>
      match skipWs s1 with
      | [] => none
      | m :: s2 =>
        if m == ',' then parseItems fuel s2
        else if m == ']' then some s2
        else none

end

/-- JavaScript `JSON.parse(s)` succeeding: a single JSON value followed only
by whitespace. -/
def jsonParses (s : String) : Bool :=
  match parseValue (s.data.length + 1) s.data with
  | some r => (skipWs r).isEmpty
  | none => false

/-! ## Data model (src/types/clipboard.ts) -/

/-- Enum `TransformationType` of src/types/clipboard.ts. -/
inductive TransformationType where
  | language_conversion
  | format_conversion
  | summarization
  | explanation
  | translation
  | cleanup
  | enhancement
  | validation
deriving DecidableEq, Repr

/-- Wire name of a `TransformationType` (its TypeScript string value). -/
def TransformationType.str : TransformationType → String
  | .language_conversion => "language_conversion"
  | .format_conversion => "format_conversion"
  | .summarization => "summarization"
  | .explanation => "explanation"
  | .translation => "translation"
  | .cleanup => "cleanup"
  | .enhancement => "enhancement"
  | .validation => "validation"

/-- Interface `AITransformation` of src/types/clipboard.ts.  `confidence` is a
JavaScript number, embedded as `ℚ`. -/
structure AITransformation where
  id : String
  title : String
  description : String
  result : String
  confidence : ℚ
  isApplied : Bool
  transformationType : TransformationType
deriving DecidableEq, Repr

/-- Interface `AIServiceConfig` of src/services/aiService.ts. -/
structure AIServiceConfig where
  baseUrl : String
  modelName : String
  timeout : Nat
  temperature : ℚ
  maxTokens : Nat
deriving Repr

/-- `DEFAULT_AI_CONFIG` of src/services/aiService.ts. -/
def DEFAULT_AI_CONFIG : AIServiceConfig :=
  { baseUrl := "http://localhost:11434/v1"
    modelName := "gpt-oss:20b"
    timeout := 30000
    temperature := 0.7
    maxTokens := 1000 }

/-- Result record of `checkOllamaStatus` (`{ available, model, error? }`). -/
structure OllamaStatus where
  available : Bool
  model : Bool
  error : Option String
deriving DecidableEq, Repr

/-! ## Network effects

Every `fetch` of the source is replaced by an oracle value describing what
the network did.  The generation endpoint is consulted once per backend call,
in call order, so the generation oracle is indexed by the call sequence
number.  `Date.now()`/`Math.random()` id material is likewise an oracle.
-/

/-- A message inside a chat-completion choice; `content` is `none` when the
field is absent (`message.content` undefined). -/
structure ChatRespMessage where
  role : String
  content : Option String
deriving DecidableEq, Repr

/-- One entry of `choices`; `message` is `none` when the field is absent. -/
structure ChatRespChoice where
  message : Option ChatRespMessage
deriving DecidableEq, Repr

/-- Parsed body of a chat-completion response (`ChatCompletionResponse`). -/
structure ChatCompletionResponse where
  choices : List ChatRespChoice
deriving DecidableEq, Repr

/-- Outcome of one generation `fetch` against `/chat/completions`. -/
inductive OllamaOutcome where
  /-- `fetch` itself threw: network failure or `AbortSignal` timeout. -/
  | netError (msg : String)
  /-- `response.ok` was false; the status code and error body text. -/
  | httpError (status : Nat) (body : String)
  /-- A 2xx response whose body parsed to `resp`. -/
  | success (resp : ChatCompletionResponse)
deriving DecidableEq, Repr

/-- The truthiness test `data.choices?.[0]?.message?.content` of the source:
the delivered text, or `none` when a level is missing or the text is the
(falsy) empty string. -/
def extractedContent (r : ChatCompletionResponse) : Option String :=
  match r.choices.head? with
  | none => none
  | some ch =>
    match ch.message with
    | none => none
    | some m =>
      match m.content with
      | none => none
      | some c => if c == "" then none else some c

/-- Behaviour of the generation endpoint for a single call: what the network
returns for the request carrying the given system and user prompt. -/
def NetBehavior : Type :=
  String → String → OllamaOutcome

/-- `AIService.callOllama(systemPrompt, userPrompt)`: one exchange with the
backend.  The prompts are what the source sends; the oracle `net` is what the
network answers, and the function reproduces the source's handling of the
response (`Ollama API error` on a non-OK status, `Invalid response from
Ollama API` when `choices[0].message.content` is missing or empty). -/
def callOllama (systemPrompt userPrompt : String) (net : NetBehavior) :
    Except String String :=
  match net systemPrompt userPrompt with
  | .netError msg => .error msg
  | .httpError status body =>
      .error ("Ollama API error: " ++ toString status ++ " - " ++ body)
  | .success data =>
    match extractedContent data with
    | none => .error "Invalid response from Ollama API"
    | some c => .ok c

/-! ## Health probe (`checkOllamaStatus`) -/

/-- Body of the `GET /api/tags` response: either text that is not valid JSON
(`response.json()` throws with message `errMsg`), or parsed JSON whose
`models` field carries the listed model names (`none` when the field is
absent — the source falls back to `[]`). -/
inductive ProbeBody where
  | notJson (errMsg : String)
  | json (models : Option (List String))
deriving DecidableEq, Repr

/-- Outcome of the probe `fetch` against `/api/tags`. -/
inductive ProbeOutcome where
  /-- `fetch` threw: server down, DNS failure or the 5s `AbortSignal` timeout. -/
  | netError (msg : String)
  /-- A response arrived with the given `ok` flag and body. -/
  | resp (ok : Bool) (body : ProbeBody)
deriving DecidableEq, Repr

/-- `AIService.checkOllamaStatus()`: classifies the probe outcome, never
throwing — every failure is collapsed into a returned record. -/
def checkOllamaStatus (config : AIServiceConfig) (outcome : ProbeOutcome) :
    OllamaStatus :=
  match outcome with
  | .netError msg => { available := false, model := false, error := some msg }
  | .resp ok body =>
    if !ok then
      { available := false, model := false, error := some "Ollama server not responding" }
    else
      match body with
      | .notJson msg => { available := false, model := false, error := some msg }
      | .json models? =>
        let models := models?.getD []
        let hasModel := models.any fun name =>
          name == config.modelName || jsIncludes name "gpt-oss"
        { available := true
          model := hasModel
          error := if hasModel then none
            else some ("Model " ++ config.modelName ++ " not found. Run: ollama pull "
              ++ config.modelName) }

/-- Failure modes of the health probe: the request threw (server down, DNS,
timeout), the server answered with a non-OK status, or the listing body was
malformed (not JSON, so `response.json()` threw). -/
def probeFailure : ProbeOutcome → Bool
  | .netError _ => true
  | .resp ok body =>
    !ok ||
      match body with
      | .notJson _ => true
      | .json _ => false

/-! ## PromptPlanner (`getTransformationPrompts` and its heuristics) -/

/-- A planned prompt (the record literals pushed by
`getTransformationPrompts`). -/
structure PromptSpec where
  type : TransformationType
  title : String
  description : String
  systemPrompt : String
  userPrompt : String
deriving DecidableEq, Repr

/-- Marker list of `AIService.looksLikeCode`. -/
def codeIndicators : List String :=
  ["function", "def ", "class ", "import ", "const ", "let ", "var ",
   "=>", "\x7b", "\x7d", "()", "if (", "for (", "while (", "//", "/*", "*/",
   "public ", "private ", "protected ", "static ", "async ", "await "]

/-- `AIService.looksLikeCode(content)`. -/
def looksLikeCode (content : String) : Bool :=
  codeIndicators.any fun indicator => jsIncludes content indicator

/-- `AIService.looksLikeJson(content)`: bracket-delimited after trimming, and
`JSON.parse` succeeds. -/
def looksLikeJson (content : String) : Bool :=
  let trimmed := jsTrim content
  if (trimmed.data.head? == some lbrace && trimmed.data.getLast? == some rbrace) ||
      (trimmed.data.head? == some '[' && trimmed.data.getLast? == some ']') then
    jsonParses trimmed
  else
    false

/-- Spec pushed for code content: convert to TypeScript. -/
def convertSpec (content : String) : PromptSpec :=
  { type := .language_conversion
    title := "Convert to TypeScript"
    description := "Convert code to TypeScript with proper types"
    systemPrompt := "You are a code conversion expert. Convert code to TypeScript while preserving functionality and adding proper type annotations."
    userPrompt := "Convert this code to TypeScript:\n```\n" ++ content ++ "\n```" }

/-- Spec pushed for code content: clean and format. -/
def cleanupSpec (content : String) : PromptSpec :=
  { type := .cleanup
    title := "Clean & Format Code"
    description := "Clean up and format the code with best practices"
    systemPrompt := "You are a code formatter and cleaner. Improve code quality, formatting, and readability while preserving functionality."
    userPrompt := "Clean and format this code:\n```\n" ++ content ++ "\n```" }

/-- Spec pushed for text content: professional tone. -/
def professionalSpec (content : String) : PromptSpec :=
  { type := .enhancement
    title := "Professional Tone"
    description := "Rewrite in a professional, business-appropriate tone"
    systemPrompt := "You are a professional writing assistant. Rewrite text to be more professional and business-appropriate while preserving the core message."
    userPrompt := "Make this text more professional:\n\n" ++ content }

/-- Spec pushed for text content: summarize. -/
def summarizeSpec (content : String) : PromptSpec :=
  { type := .summarization
    title := "Summarize"
    description := "Create a concise summary of the content"
    systemPrompt := "You are a summarization expert. Create clear, concise summaries that capture the key points."
    userPrompt := "Summarize this text:\n\n" ++ content }

/-- Spec pushed for JSON content: convert to CSV. -/
def csvSpec (content : String) : PromptSpec :=
  { type := .format_conversion
    title := "Convert to CSV"
    description := "Convert JSON data to CSV format"
    systemPrompt := "You are a data conversion expert. Convert data between formats while preserving all information."
    userPrompt := "Convert this JSON to CSV format:\n```json\n" ++ content ++ "\n```" }

/-- Spec always pushed last: explanation. -/
def explainSpec (content : String) : PromptSpec :=
  { type := .explanation
    title := "Explain Content"
    description := "Provide a clear explanation of what this content does or means"
    systemPrompt := "You are an expert explainer. Break down complex content into easy-to-understand explanations."
    userPrompt := "Explain what this content does or means:\n\n" ++ content }

/-- `AIService.getTransformationPrompts(content, contentType)`: the ordered
prompt plan. -/
def getTransformationPrompts (content contentType : String) : List PromptSpec :=
  let prompts : List PromptSpec := []
  let prompts := if contentType == "code" || looksLikeCode content then
      prompts ++ [convertSpec content, cleanupSpec content]
    else prompts
  let prompts := if contentType == "text" || contentType == "email" then
      prompts ++ [professionalSpec content, summarizeSpec content]
    else prompts
  let prompts := if contentType == "json" || looksLikeJson content then
      prompts ++ [csvSpec content]
    else prompts
  prompts ++ [explainSpec content]

/-! ## ScoringPolicy (`calculateConfidence`) -/

/-- `AIService.calculateConfidence(original, transformed, type)`.  Note on the
length ratio at `original = ""`: JavaScript produces `Infinity` (or `NaN` for
`0/0`) and the conjunction `ratio > 0.3 && ratio < 3` is false either way;
`ℚ` division by zero yields `0`, for which the conjunction is false as well,
so the two semantics agree on every input. -/
def calculateConfidence (original transformed : String) (type : TransformationType) : ℚ :=
  let confidence : ℚ := 0.7
  let lengthRatio : ℚ := (transformed.length : ℚ) / (original.length : ℚ)
  let confidence := if lengthRatio > 0.3 ∧ lengthRatio < 3 then confidence + 0.1 else confidence
  let originalWords := splitNonWord (jsToLower original)
  let transformedWords := splitNonWord (jsToLower transformed)
  let preservedWords := originalWords.filter fun word =>
    decide (word.length > 3) && transformedWords.contains word
  let confidence :=
    if (preservedWords.length : ℚ) / (originalWords.length : ℚ) > 0.3 then
      confidence + 0.1
    else confidence
  let confidence :=
    match type with
    | .language_conversion =>
      if jsIncludes transformed "interface" || jsIncludes transformed "type " then
        confidence + 0.1
      else confidence
    | .format_conversion =>
      if jsIncludes transformed "," then confidence + 0.1 else confidence
    | _ => confidence
  min confidence 1.0

/-- First adjustment check of `calculateConfidence`, as a standalone
predicate: the length ratio lies strictly between `0.3` and `3`. -/
def lengthRatioOk (original transformed : String) : Bool :=
  let lengthRatio : ℚ := (transformed.length : ℚ) / (original.length : ℚ)
  decide (lengthRatio > 0.3 ∧ lengthRatio < 3)

/-- Second adjustment check of `calculateConfidence`, as a standalone
predicate: the significant preserved words, divided by the number of ALL
original word tokens, exceed `0.3` strictly. -/
def wordPreservedOk (original transformed : String) : Bool :=
  let originalWords := splitNonWord (jsToLower original)
  let transformedWords := splitNonWord (jsToLower transformed)
  let preservedWords := originalWords.filter fun word =>
    decide (word.length > 3) && transformedWords.contains word
  decide ((preservedWords.length : ℚ) / (originalWords.length : ℚ) > 0.3)

/-- Third adjustment check of `calculateConfidence`: the kind-specific
marker. -/
def markerOk (transformed : String) (type : TransformationType) : Bool :=
  match type with
  | .language_conversion =>
    jsIncludes transformed "interface" || jsIncludes transformed "type "
  | .format_conversion => jsIncludes transformed ","
  | _ => false

/-! ## OrchestrationEngine (`generateTransformations`) -/

/-- JavaScript comparator `(a, b) => b.confidence - a.confidence` as the
"sorts-before-or-equal" relation of the stable `Array.prototype.sort`. -/
def confDesc (a b : AITransformation) : Bool :=
  b.confidence ≤ a.confidence

/-- Loop body of `generateTransformations`: runs the planned prompts in order
starting at call number `i`, appending a scored result on success and merely
continuing on failure (the source logs a `console.warn` and moves on). -/
def runPrompts (oracle : Nat → NetBehavior) (nonce : Nat → String)
    (content : String) : Nat → List PromptSpec → List AITransformation
  | _, [] => []
  | i, prompt :: rest =>
    match callOllama prompt.systemPrompt prompt.userPrompt (oracle i) with
    | .ok result =>
      { id := prompt.type.str ++ "-" ++ nonce i
        title := prompt.title
        description := prompt.description
        result := jsTrim result
        confidence := calculateConfidence content result prompt.type
        isApplied := false
        transformationType := prompt.type } :: runPrompts oracle nonce content (i + 1) rest
    | .error _ => runPrompts oracle nonce content (i + 1) rest

/-- Observational success of the backend call a given spec would make at
call number `i`. -/
def callSucceeds (oracle : Nat → NetBehavior) (i : Nat) (p : PromptSpec) : Bool :=
  (callOllama p.systemPrompt p.userPrompt (oracle i)).isOk

/-- The sublist of planned specs whose backend call succeeds, in plan
order, starting at call number `i`. -/
def successfulSpecs (oracle : Nat → NetBehavior) : Nat → List PromptSpec → List PromptSpec
  | _, [] => []
  | i, p :: rest =>
    if callSucceeds oracle i p then p :: successfulSpecs oracle (i + 1) rest
    else successfulSpecs oracle (i + 1) rest

/-- `AIService.generateTransformations(content, contentType)`.  `probe` is
what the pre-flight `checkOllamaStatus` fetch observed, `oracle` the outcomes
of the generation calls in issue order, and `nonce` the
`Date.now()`/`Math.random()` id material of each loop iteration. -/
def generateTransformations (config : AIServiceConfig) (probe : ProbeOutcome)
    (oracle : Nat → NetBehavior) (nonce : Nat → String)
    (content contentType : String) : Except String (List AITransformation) :=
  let status := checkOllamaStatus config probe
  if !status.available || !status.model then
    .error (status.error.getD "Ollama not available")
  else
    let transformationPrompts := getTransformationPrompts content contentType
    let transformations := runPrompts oracle nonce content 0 transformationPrompts
    .ok (transformations.mergeSort confDesc)

/-! ## CustomInstructionProcessor (`processWithCustomPrompt`) -/

/-- The system prompt of `processWithCustomPrompt`. -/
def customSystemPrompt : String :=
  "You are an AI assistant that helps transform clipboard content. \nThe user has copied some content and wants you to process it according to their instructions.\nBe helpful, accurate, and preserve important information while following their request."

/-- The single user prompt of `processWithCustomPrompt`: the clipboard
content as a fenced block followed by the free-text request. -/
def customUserPrompt (content customPrompt : String) : String :=
  "Here is the clipboard content:\n" ++ ("```\n" ++ content ++ "\n```") ++
    "\n\nUser's request: " ++ customPrompt ++
    "\n\nPlease process the content according to the user's request:"

/-- `AIService.processWithCustomPrompt(content, customPrompt)`. -/
def processWithCustomPrompt (config : AIServiceConfig) (probe : ProbeOutcome)
    (oracle : Nat → NetBehavior) (nonce : Nat → String)
    (content customPrompt : String) : Except String (List AITransformation) :=
  let status := checkOllamaStatus config probe
  if !status.available || !status.model then
    .error (status.error.getD "Ollama not available")
  else
    match callOllama customSystemPrompt (customUserPrompt content customPrompt)
        (oracle 0) with
    | .ok result =>
      .ok [{ id := "custom-" ++ nonce 0
             title := "Custom Transformation"
             description := customPrompt
             result := jsTrim result
             confidence := 0.8
             isApplied := false
             transformationType := .enhancement }]
    | .error e => .error ("AI processing failed: " ++ e)

/-! ## ClipboardPanel request handling (src/components/ClipboardPanel.tsx)

`processWithCustomPrompt` in the panel awaits the AI call, then either stores
the transformations or — when the request was cancelled — drops them.  The
part after the `await` is embedded as a state transformer over the React
state the handler touches. -/

/-- The panel state fields read or written by the custom-prompt handler. -/
structure PanelState where
  aiTransformations : List AITransformation
  customPrompt : String
  error : Option String
  isProcessingAI : Bool
deriving DecidableEq, Repr

/-- A thrown JavaScript `Error` as observed by the catch block. -/
structure JsError where
  name : String
  message : String
deriving DecidableEq, Repr

/-- Continuation of `ClipboardPanel.processWithCustomPrompt` after the
`await`: on success it stores the results and clears the prompt unless
`controller.signal.aborted` is set, in which case it returns without touching
them; a thrown `AbortError` is swallowed, any other error is surfaced via
`setError`; the `finally` block always clears the busy flag. -/
def handleCustomPromptOutcome (st : PanelState) (aborted : Bool)
    (outcome : Except JsError (List AITransformation)) : PanelState :=
  let st' :=
    match outcome with
    | .ok transformations =>
      if aborted then st
      else { st with aiTransformations := transformations, customPrompt := "" }
    | .error err =>
      if err.name == "AbortError" then st
      else { st with error := some err.message }
  { st' with isProcessingAI := false }

/-! ## Spec-side definitions

These two definitions follow the wording of the specification rather than the
source; they exist to be compared with the source-derived definitions above.
-/

/-- The scoring function exactly as claim C1 states it: base `0.7`, `+0.1`
when the length ratio is strictly between `0.3` and `3.0`, `+0.1` when at
least 30% of the original's significant words (length > 3) reappear among
the transformed text's words, `+0.1` for the kind-specific marker, capped at
`1.0`.  It differs from `calculateConfidence` in the second check, whose
fraction here has the count of significant original words as denominator and
is compared with `≥`. -/
def calculateConfidenceClaim (original transformed : String)
    (type : TransformationType) : ℚ :=
  let originalWords := splitNonWord (jsToLower original)
  let transformedWords := splitNonWord (jsToLower transformed)
  let significantWords := originalWords.filter fun word => decide (word.length > 3)
  let preservedSignificant := significantWords.filter fun word =>
    transformedWords.contains word
  let lengthRatio : ℚ := (transformed.length : ℚ) / (original.length : ℚ)
  let check1 : Bool := lengthRatio > 0.3 && lengthRatio < 3
  let check2 : Bool :=
    (preservedSignificant.length : ℚ) / (significantWords.length : ℚ) ≥ 0.3
  let check3 : Bool :=
    match type with
    | .language_conversion =>
      jsIncludes transformed "interface" || jsIncludes transformed "type "
    | .format_conversion => jsIncludes transformed ","
    | _ => false
  min (0.7 + (if check1 then (0.1 : ℚ) else 0) + (if check2 then 0.1 else 0)
    + (if check3 then 0.1 else 0)) 1.0

/-- Concatenation of the caller-supplied context snippets, in caller order. -/
def contextConcat (snips : List String) : String :=
  String.intercalate "\n" snips

/-- Modelled from the spec: the context-snippet variant of the custom
instruction path.  The snippets collected by `ClipboardPanel` (its
`contextStrings`, src/components) are handed to the Rust `process_with_ai`
command, which is not part of src/; per §4.5 of the specification that
processor builds exactly one user prompt embedding the content as a delimited
block, the free-text instruction, and the supplied context snippets
concatenated in caller-supplied order. -/
def customContextPrompt (content instruction : String) (snips : List String) : String :=
  "Here is the clipboard content:\n" ++ ("```\n" ++ content ++ "\n```") ++
    "\n\nUser's request: " ++ instruction ++
    "\n\nAdditional context:\n" ++ contextConcat snips ++
    "\n\nPlease process the content according to the user's request:"

/-- Modelled from the spec: `processCustom(content, instruction,
contextSnippets?)` of §4.5 — one backend call carrying
`customContextPrompt`, a single returned result with the fixed confidence
`0.8`, and any backend failure propagated to the caller as a reportable
error. -/
def processCustom (oracle : Nat → NetBehavior) (nonce : Nat → String)
    (content instruction : String) (contextSnippets : List String) :
    Except String AITransformation :=
  match callOllama customSystemPrompt
      (customContextPrompt content instruction contextSnippets) (oracle 0) with
  | .ok result =>
    .ok { id := "custom-" ++ nonce 0
          title := "Custom Transformation"
          description := instruction
          result := jsTrim result
          confidence := 0.8
          isApplied := false
          transformationType := .enhancement }
  | .error e => .error ("AI processing failed: " ++ e)

/-! ## Concrete fixtures

Closed sample inputs used to instantiate the universally quantified theorems
below at concrete values. -/

/-- A probe outcome that reports the default model as available. -/
def probeOkFixture : ProbeOutcome :=
  .resp true (.json (some ["gpt-oss:20b"]))

/-- A network in which every generation call fails at the socket level. -/
def oracleFailFixture : Nat → NetBehavior :=
  fun _ _ _ => .netError "connection refused"

/-- A network in which every generation call answers `"hola"`. -/
def oracleHolaFixture : Nat → NetBehavior :=
  fun _ _ _ => .success ⟨[⟨some ⟨"assistant", some "hola"⟩⟩]⟩

/-- A response body with an empty `choices` array, so
`choices[0].message.content` is missing. -/
def malformedRespFixture : ChatCompletionResponse := ⟨[]⟩

/-- A network in which every generation call returns the malformed body. -/
def oracleMalformedFixture : Nat → NetBehavior :=
  fun _ _ _ => .success malformedRespFixture

/-- Fixed id material for the sample runs. -/
def nonceFixture : Nat → String :=
  fun _ => "w"

/-- A sample panel state with one stored transformation and a stale error. -/
def panelStateFixture : PanelState :=
  { aiTransformations :=
      [{ id := "old", title := "Old", description := "old", result := "old"
         confidence := 0.8, isApplied := false, transformationType := .enhancement }]
    customPrompt := "translate"
    error := some "previous error"
    isProcessingAI := true }

/-! ## Scoring lemmas -/

/-- Closed form of `calculateConfidence`: base `0.7`, one independent `0.1`
bump per satisfied check, capped at `1.0`. -/
theorem calcConf_formula (o t : String) (k : TransformationType) :
    calculateConfidence o t k =
      min (0.7 + (if lengthRatioOk o t then (0.1 : ℚ) else 0)
        + (if wordPreservedOk o t then (0.1 : ℚ) else 0)
        + (if markerOk t k then (0.1 : ℚ) else 0)) 1.0 := by
  unfold calculateConfidence lengthRatioOk wordPreservedOk markerOk
  cases k <;> simp only [decide_eq_true_eq] <;> split_ifs <;>
    first
    | exact (by assumption : False).elim
    | norm_num

/-- The score is always one of the four reachable values. -/
theorem calcConf_cases (o t : String) (k : TransformationType) :
    calculateConfidence o t k = 0.7 ∨ calculateConfidence o t k = 0.8 ∨
    calculateConfidence o t k = 0.9 ∨ calculateConfidence o t k = 1 := by
  rw [calcConf_formula]
  split_ifs <;> norm_num [min_def]

/-- The score always lies in `[0.7, 1]` (hence in `[0, 1]`). -/
theorem calcConf_range (o t : String) (k : TransformationType) :
    0.7 ≤ calculateConfidence o t k ∧ calculateConfidence o t k ≤ 1 := by
  rcases calcConf_cases o t k with h | h | h | h <;> rw [h] <;> norm_num

/-! ## Claim C1 -/

/-- C1, counterexample: on original `"a b c words"`, transformed `"words"`,
kind `summarization`, the source scoring function returns `0.8` while the
scoring function described by the claim returns `0.9`: the source divides the
count of preserved significant words (here 1, `words`) by the number of ALL
original word tokens (here 4), getting `0.25`, which does not exceed `0.3`,
whereas the claim's check — at least 30% of the SIGNIFICANT words reappear —
is satisfied (1 of 1).  The claim as stated is therefore false. -/
theorem c1_counterexample :
    calculateConfidence "a b c words" "words" .summarization = 0.8 ∧
    calculateConfidenceClaim "a b c words" "words" .summarization = 0.9 ∧
    calculateConfidence "a b c words" "words" .summarization ≠
      calculateConfidenceClaim "a b c words" "words" .summarization := by
  have hsource : calculateConfidence "a b c words" "words" .summarization = 0.8 := by
    unfold calculateConfidence
    simp only [show splitNonWord (jsToLower "a b c words") =
        [['a'], ['b'], ['c'], ['w', 'o', 'r', 'd', 's']] from rfl,
      show splitNonWord (jsToLower "words") = [['w', 'o', 'r', 'd', 's']] from rfl,
      show ([['a'], ['b'], ['c'], ['w', 'o', 'r', 'd', 's']].filter fun word =>
        decide (word.length > 3) &&
          ([['w', 'o', 'r', 'd', 's']] : List (List Char)).contains word) =
        [['w', 'o', 'r', 'd', 's']] from by decide,
      show ("a b c words".length : Nat) = 11 from rfl,
      show ("words".length : Nat) = 5 from rfl,
      List.length_cons, List.length_nil, List.length_singleton]
    norm_num [min_def]
  have hclaim : calculateConfidenceClaim "a b c words" "words" .summarization = 0.9 := by
    unfold calculateConfidenceClaim
    simp only [show splitNonWord (jsToLower "a b c words") =
        [['a'], ['b'], ['c'], ['w', 'o', 'r', 'd', 's']] from rfl,
      show splitNonWord (jsToLower "words") = [['w', 'o', 'r', 'd', 's']] from rfl,
      show (([['a'], ['b'], ['c'], ['w', 'o', 'r', 'd', 's']] : List (List Char)).filter
        fun word => decide (word.length > 3)) = [['w', 'o', 'r', 'd', 's']] from by decide,
      show (([['w', 'o', 'r', 'd', 's']] : List (List Char)).filter fun word =>
        ([['w', 'o', 'r', 'd', 's']] : List (List Char)).contains word) =
        [['w', 'o', 'r', 'd', 's']] from by decide,
      show ("a b c words".length : Nat) = 11 from rfl,
      show ("words".length : Nat) = 5 from rfl,
      List.length_cons, List.length_nil, List.length_singleton]
    norm_num [min_def]
  refine ⟨hsource, hclaim, ?_⟩
  rw [hsource, hclaim]
  norm_num

/-- C1, amended: the scoring function returns base confidence `0.7` plus
`0.1` for each satisfied check, capped at `1.0`, where the checks are:
(1) `len(transformed)/len(original)` falls strictly between `0.3` and `3.0`;
(2) the number of original significant words (length > 3) reappearing among
the transformed text's words, divided by the number of ALL original word
tokens, exceeds `0.3` strictly; (3) a kind-specific marker is present
(type-annotation keywords for `language_conversion`, a field separator for
`format_conversion`). -/
theorem c1_theorem (o t : String) (k : TransformationType) :
    calculateConfidence o t k =
      min (0.7 + (if lengthRatioOk o t then (0.1 : ℚ) else 0)
        + (if wordPreservedOk o t then (0.1 : ℚ) else 0)
        + (if markerOk t k then (0.1 : ℚ) else 0)) 1.0 :=
  calcConf_formula o t k

/-! ## Claim C2 -/

/-- C2: the prompt planner is deterministic (identical inputs yield the same
ordered spec list), its output always ends with the explanation spec, and on
content `"function add(a,b){return a+b}"` with category `code` it emits
exactly `[language_conversion, cleanup, explanation]` in that order. -/
theorem c2_theorem :
    (∀ (c₁ c₂ k₁ k₂ : String), c₁ = c₂ → k₁ = k₂ →
      getTransformationPrompts c₁ k₁ = getTransformationPrompts c₂ k₂) ∧
    (∀ (content contentType : String), ∃ pre,
      getTransformationPrompts content contentType = pre ++ [explainSpec content]) ∧
    (getTransformationPrompts "function add(a,b)\x7breturn a+b\x7d" "code").map
      PromptSpec.type = [.language_conversion, .cleanup, .explanation] := by
  refine ⟨?_, ?_, rfl⟩
  · intro c₁ c₂ k₁ k₂ hc hk
    rw [hc, hk]
  · intro content contentType
    exact ⟨_, rfl⟩

/-- C2, witness: the determinism conjunct at content `"hello"`, category
`text`. -/
theorem c2_witness :
    getTransformationPrompts "hello" "text" = getTransformationPrompts "hello" "text" :=
  c2_theorem.1 "hello" "hello" "text" "text" rfl rfl

/-! ## Claim C8 -/

/-- C8: the health probe is a total function into `OllamaStatus` (the
embedding of the enclosing try/catch — it never throws), and on every failure
mode (request threw: server down or timeout; non-OK HTTP status; listing
body that fails to parse) it reports `available = false`, `model = false`,
and carries a diagnostic message. -/
theorem c8_theorem (config : AIServiceConfig) (outcome : ProbeOutcome)
    (h : probeFailure outcome = true) :
    (checkOllamaStatus config outcome).available = false ∧
    (checkOllamaStatus config outcome).model = false ∧
    (checkOllamaStatus config outcome).error.isSome = true := by
  match outcome with
  | .netError msg => simp [checkOllamaStatus]
  | .resp false body => simp [checkOllamaStatus]
  | .resp true body =>
    match body with
    | .notJson msg => simp [checkOllamaStatus]
    | .json models? => simp [probeFailure] at h

/-- C8, witness: the probe outcome of a refused connection. -/
theorem c8_witness :
    (checkOllamaStatus DEFAULT_AI_CONFIG (.netError "connection refused")).available = false ∧
    (checkOllamaStatus DEFAULT_AI_CONFIG (.netError "connection refused")).model = false ∧
    (checkOllamaStatus DEFAULT_AI_CONFIG (.netError "connection refused")).error.isSome = true :=
  c8_theorem DEFAULT_AI_CONFIG (.netError "connection refused") rfl

/-! ## Claim C9 -/

/-- C9: whatever partial or complete result list a cancelled batch produced,
the panel handler discards it — when the abort flag is set at resolution
time, or when the await ends in an `AbortError` — leaving the caller-visible
transformations and error exactly as they were (no results and no error from
that batch); only the busy flag is cleared. -/
theorem c9_theorem (st : PanelState) (aborted : Bool)
    (outcome : Except JsError (List AITransformation)) :
    (aborted = true → ∀ l, outcome = .ok l →
      handleCustomPromptOutcome st aborted outcome = { st with isProcessingAI := false }) ∧
    (∀ e, outcome = .error e → e.name = "AbortError" →
      handleCustomPromptOutcome st aborted outcome = { st with isProcessingAI := false }) := by
  constructor
  · intro ha l hout
    subst ha hout
    simp [handleCustomPromptOutcome]
  · intro e hout hname
    subst hout
    simp [handleCustomPromptOutcome, hname]

/-- C9, witness: a batch that resolved with one fresh result while the abort
flag was set leaves the stored transformations and error untouched. -/
theorem c9_witness :
    handleCustomPromptOutcome panelStateFixture true
      (.ok [{ id := "new", title := "New", description := "d", result := "r"
              confidence := 0.9, isApplied := false, transformationType := .cleanup }]) =
      { panelStateFixture with isProcessingAI := false } :=
  (c9_theorem panelStateFixture true _).1 rfl _ rfl

/-! ## Engine lemmas -/

/-- The loop produces exactly one result per successful call. -/
theorem runPrompts_length (oracle : Nat → NetBehavior) (nonce : Nat → String)
    (content : String) :
    ∀ (ps : List PromptSpec) (i : Nat),
      (runPrompts oracle nonce content i ps).length =
        (successfulSpecs oracle i ps).length := by
  intro ps
  induction ps with
  | nil => intro i; rfl
  | cons p rest ih =>
    intro i
    cases hc : callOllama p.systemPrompt p.userPrompt (oracle i) with
    | ok r => simp [runPrompts, successfulSpecs, callSucceeds, hc, Except.isOk, Except.toBool, ih]
    | error e => simp [runPrompts, successfulSpecs, callSucceeds, hc, Except.isOk, Except.toBool, ih]

/-- The loop keeps the plan's order and kinds: the emitted kinds are those of
the successful specs, in plan order. -/
theorem runPrompts_types (oracle : Nat → NetBehavior) (nonce : Nat → String)
    (content : String) :
    ∀ (ps : List PromptSpec) (i : Nat),
      (runPrompts oracle nonce content i ps).map (·.transformationType) =
        (successfulSpecs oracle i ps).map (·.type) := by
  intro ps
  induction ps with
  | nil => intro i; rfl
  | cons p rest ih =>
    intro i
    cases hc : callOllama p.systemPrompt p.userPrompt (oracle i) with
    | ok r => simp [runPrompts, successfulSpecs, callSucceeds, hc, Except.isOk, Except.toBool, ih]
    | error e => simp [runPrompts, successfulSpecs, callSucceeds, hc, Except.isOk, Except.toBool, ih]

/-- Every confidence the loop emits is a `calculateConfidence` value. -/
theorem runPrompts_conf (oracle : Nat → NetBehavior) (nonce : Nat → String)
    (content : String) :
    ∀ (ps : List PromptSpec) (i : Nat) (t : AITransformation),
      t ∈ runPrompts oracle nonce content i ps →
        ∃ r k, t.confidence = calculateConfidence content r k := by
  intro ps
  induction ps with
  | nil => intro i t ht; simp [runPrompts] at ht
  | cons p rest ih =>
    intro i t ht
    cases hc : callOllama p.systemPrompt p.userPrompt (oracle i) with
    | ok r =>
      simp only [runPrompts, hc] at ht
      rcases List.mem_cons.mp ht with h | h
      · exact ⟨r, p.type, by rw [h]⟩
      · exact ih (i + 1) t h
    | error e =>
      simp only [runPrompts, hc] at ht
      exact ih (i + 1) t ht

/-- When every call fails there are no successful specs. -/
theorem successfulSpecs_nil (oracle : Nat → NetBehavior)
    (h : ∀ i p, callSucceeds oracle i p = false) :
    ∀ (ps : List PromptSpec) (i : Nat), successfulSpecs oracle i ps = [] := by
  intro ps
  induction ps with
  | nil => intro i; rfl
  | cons p rest ih => intro i; simp [successfulSpecs, h, ih]

/-- The comparator of the final sort is transitive. -/
theorem confDesc_trans (a b c : AITransformation)
    (hab : confDesc a b = true) (hbc : confDesc b c = true) : confDesc a c = true := by
  simp only [confDesc, decide_eq_true_eq] at *
  exact le_trans hbc hab

/-- The comparator of the final sort is total. -/
theorem confDesc_total (a b : AITransformation) :
    (confDesc a b || confDesc b a) = true := by
  simp only [confDesc, Bool.or_eq_true, decide_eq_true_eq]
  exact le_total _ _

/-- Stability of `mergeSort` for a class of mutually tied elements: the
elements satisfying `p` come out in exactly the order they went in, provided
any two of them compare as tied. -/
theorem mergeSort_filter_stable {α : Type} (le : α → α → Bool)
    (htrans : ∀ a b c, le a b = true → le b c = true → le a c = true)
    (htotal : ∀ a b, (le a b || le b a) = true)
    (l : List α) (p : α → Bool)
    (hp : ∀ a b, p a = true → p b = true → le a b = true) :
    (l.mergeSort le).filter p = l.filter p := by
  have hpair : (l.filter p).Pairwise (fun a b => le a b = true) :=
    List.pairwise_of_forall_mem_list fun a ha b hb =>
      hp a b (List.of_mem_filter ha) (List.of_mem_filter hb)
  have hsub : (l.filter p).Sublist (l.mergeSort le) :=
    List.sublist_mergeSort htrans htotal hpair (List.filter_sublist l)
  have hself : (l.filter p).filter p = l.filter p :=
    List.filter_eq_self.mpr fun a ha => List.of_mem_filter ha
  have hsub2 : (l.filter p).Sublist ((l.mergeSort le).filter p) := by
    have hf := hsub.filter p
    rwa [hself] at hf
  have hlen : ((l.mergeSort le).filter p).length = (l.filter p).length :=
    ((List.mergeSort_perm l le).filter p).length_eq
  exact (hsub2.eq_of_length hlen.symm).symm

/-! ## Claim C4 -/

/-- C4: when the pre-flight probe reports the server unreachable or the model
unavailable, `generateTransformations` fails immediately with the probe's
diagnostic (default `Ollama not available`), and the outcome is independent
of the generation network and id material — no generation call can influence
it, i.e. zero generation calls are issued. -/
theorem c4_theorem (config : AIServiceConfig) (probe : ProbeOutcome)
    (oracle : Nat → NetBehavior) (nonce : Nat → String) (content contentType : String)
    (h : (checkOllamaStatus config probe).available = false ∨
      (checkOllamaStatus config probe).model = false) :
    generateTransformations config probe oracle nonce content contentType =
      .error ((checkOllamaStatus config probe).error.getD "Ollama not available") ∧
    ∀ (oracle' : Nat → NetBehavior) (nonce' : Nat → String),
      generateTransformations config probe oracle' nonce' content contentType =
        generateTransformations config probe oracle nonce content contentType := by
  have hcond : (!(checkOllamaStatus config probe).available
      || !(checkOllamaStatus config probe).model) = true := by
    rcases h with h | h <;> simp [h]
  constructor
  · simp [generateTransformations, hcond]
  · intro oracle' nonce'
    simp [generateTransformations, hcond]

/-- C4, witness: a refused probe connection makes the batch fail with the
probe diagnostic, for every network. -/
theorem c4_witness :
    generateTransformations DEFAULT_AI_CONFIG (.netError "connection refused")
      oracleHolaFixture nonceFixture "hello" "text" = .error "connection refused" ∧
    ∀ (oracle' : Nat → NetBehavior) (nonce' : Nat → String),
      generateTransformations DEFAULT_AI_CONFIG (.netError "connection refused")
          oracle' nonce' "hello" "text" =
        generateTransformations DEFAULT_AI_CONFIG (.netError "connection refused")
          oracleHolaFixture nonceFixture "hello" "text" :=
  c4_theorem DEFAULT_AI_CONFIG (.netError "connection refused") oracleHolaFixture
    nonceFixture "hello" "text" (Or.inl rfl)

/-- With a healthy probe, the batch runs the loop and sorts its output. -/
theorem generate_ok (config : AIServiceConfig) (probe : ProbeOutcome)
    (oracle : Nat → NetBehavior) (nonce : Nat → String) (content contentType : String)
    (ha : (checkOllamaStatus config probe).available = true)
    (hm : (checkOllamaStatus config probe).model = true) :
    generateTransformations config probe oracle nonce content contentType =
      .ok ((runPrompts oracle nonce content 0
        (getTransformationPrompts content contentType)).mergeSort confDesc) := by
  simp [generateTransformations, ha, hm]

/-! ## Claim C5 -/

/-- C5: with a healthy probe the batch never errors: it returns a list with
exactly one entry per planned spec whose backend call succeeded (a failing
spec contributes nothing while the remaining specs still contribute — the
emitted kinds are, up to the final reordering, precisely the kinds of the
successful specs), and if every call fails the result is the empty list
rather than an error. -/
theorem c5_theorem (config : AIServiceConfig) (probe : ProbeOutcome)
    (oracle : Nat → NetBehavior) (nonce : Nat → String) (content contentType : String)
    (ha : (checkOllamaStatus config probe).available = true)
    (hm : (checkOllamaStatus config probe).model = true) :
    ∃ l, generateTransformations config probe oracle nonce content contentType = .ok l ∧
      l.length =
        (successfulSpecs oracle 0 (getTransformationPrompts content contentType)).length ∧
      (l.map (·.transformationType)).Perm
        ((successfulSpecs oracle 0 (getTransformationPrompts content contentType)).map
          (·.type)) ∧
      ((∀ i p, callSucceeds oracle i p = false) → l = []) := by
  refine ⟨_, generate_ok config probe oracle nonce content contentType ha hm, ?_, ?_, ?_⟩
  · rw [List.length_mergeSort]
    exact runPrompts_length oracle nonce content _ 0
  · have h1 := (List.mergeSort_perm
      (runPrompts oracle nonce content 0 (getTransformationPrompts content contentType))
      confDesc).map (·.transformationType)
    rwa [runPrompts_types] at h1
  · intro hall
    apply List.eq_nil_of_length_eq_zero
    rw [List.length_mergeSort, runPrompts_length, successfulSpecs_nil oracle hall]
    rfl

/-- C5, witness: a healthy probe with every generation call failing at the
socket yields the empty list. -/
theorem c5_witness :
    ∃ l, generateTransformations DEFAULT_AI_CONFIG probeOkFixture oracleFailFixture
        nonceFixture "hi" "text" = .ok l ∧
      l.length =
        (successfulSpecs oracleFailFixture 0 (getTransformationPrompts "hi" "text")).length ∧
      (l.map (·.transformationType)).Perm
        ((successfulSpecs oracleFailFixture 0 (getTransformationPrompts "hi" "text")).map
          (·.type)) ∧
      ((∀ i p, callSucceeds oracleFailFixture i p = false) → l = []) :=
  c5_theorem DEFAULT_AI_CONFIG probeOkFixture oracleFailFixture nonceFixture "hi" "text"
    rfl rfl

/-! ## Claim C3 -/

/-- C3: every list the batch returns has all confidences within `[0, 1]`, is
sorted by confidence in non-increasing order, and entries of equal confidence
appear in the loop's emission order — which is the planner's order — because
the sort is stable: for each confidence value, filtering the output gives
exactly the filtered emission list. -/
theorem c3_theorem (config : AIServiceConfig) (probe : ProbeOutcome)
    (oracle : Nat → NetBehavior) (nonce : Nat → String) (content contentType : String)
    (l : List AITransformation)
    (h : generateTransformations config probe oracle nonce content contentType = .ok l) :
    (∀ t ∈ l, (0 : ℚ) ≤ t.confidence ∧ t.confidence ≤ 1) ∧
    l.Pairwise (fun a b => b.confidence ≤ a.confidence) ∧
    (∀ c : ℚ, l.filter (fun t => decide (t.confidence = c)) =
      (runPrompts oracle nonce content 0 (getTransformationPrompts content contentType)).filter
        (fun t => decide (t.confidence = c))) := by
  unfold generateTransformations at h
  by_cases hcond : (!(checkOllamaStatus config probe).available
      || !(checkOllamaStatus config probe).model) = true
  · rw [if_pos hcond] at h
    exact absurd h (by simp)
  · rw [if_neg hcond] at h
    have hl := (Except.ok.inj h).symm
    subst hl
    refine ⟨?_, ?_, ?_⟩
    · intro t ht
      have hmem : t ∈ runPrompts oracle nonce content 0
          (getTransformationPrompts content contentType) :=
        (List.mergeSort_perm _ confDesc).mem_iff.mp ht
      obtain ⟨r, k, hconf⟩ := runPrompts_conf oracle nonce content _ 0 t hmem
      rw [hconf]
      have hr := calcConf_range content r k
      exact ⟨le_trans (by norm_num) hr.1, hr.2⟩
    · have hs := List.sorted_mergeSort confDesc_trans confDesc_total
        (runPrompts oracle nonce content 0 (getTransformationPrompts content contentType))
      exact hs.imp fun hab => by simpa [confDesc] using hab
    · intro c
      apply mergeSort_filter_stable confDesc confDesc_trans confDesc_total
      intro a b hac hbc
      simp only [decide_eq_true_eq] at hac hbc
      simp [confDesc, hac, hbc]

unseal List.merge List.mergeSort in
/-- C3, witness: the empty batch of an all-failing network. -/
theorem c3_witness :
    (∀ t ∈ ([] : List AITransformation), (0 : ℚ) ≤ t.confidence ∧ t.confidence ≤ 1) ∧
    ([] : List AITransformation).Pairwise (fun a b => b.confidence ≤ a.confidence) ∧
    (∀ c : ℚ, ([] : List AITransformation).filter (fun t => decide (t.confidence = c)) =
      (runPrompts oracleFailFixture nonceFixture "hi" 0
        (getTransformationPrompts "hi" "text")).filter
          (fun t => decide (t.confidence = c))) :=
  c3_theorem DEFAULT_AI_CONFIG probeOkFixture oracleFailFixture nonceFixture "hi" "text"
    [] rfl

/-! ## Claim C7 -/

/-- C7: a backend response whose `choices[0].message.content` is absent or
empty makes the generation call fail with the malformed-response error; in
batch mode such a spec merely counts as unsuccessful — the batch still
returns an `ok` list with one entry per successful spec — while in custom
mode the error propagates to the caller wrapped in the reportable
`AI processing failed:` message. -/
theorem c7_theorem (data : ChatCompletionResponse)
    (hmal : extractedContent data = none) :
    (∀ (s u : String) (net : NetBehavior), net s u = .success data →
      callOllama s u net = .error "Invalid response from Ollama API") ∧
    (∀ (oracle : Nat → NetBehavior) (i : Nat) (p : PromptSpec),
      (∀ s u, oracle i s u = .success data) → callSucceeds oracle i p = false) ∧
    (∀ (config : AIServiceConfig) (probe : ProbeOutcome) (oracle : Nat → NetBehavior)
      (nonce : Nat → String) (content contentType : String),
      (checkOllamaStatus config probe).available = true →
      (checkOllamaStatus config probe).model = true →
      ∃ l, generateTransformations config probe oracle nonce content contentType = .ok l ∧
        l.length =
          (successfulSpecs oracle 0 (getTransformationPrompts content contentType)).length) ∧
    (∀ (config : AIServiceConfig) (probe : ProbeOutcome) (oracle : Nat → NetBehavior)
      (nonce : Nat → String) (content customPrompt : String),
      (checkOllamaStatus config probe).available = true →
      (checkOllamaStatus config probe).model = true →
      (∀ s u, oracle 0 s u = .success data) →
      processWithCustomPrompt config probe oracle nonce content customPrompt =
        .error "AI processing failed: Invalid response from Ollama API") := by
  have hcall : ∀ (s u : String) (net : NetBehavior), net s u = .success data →
      callOllama s u net = .error "Invalid response from Ollama API" := by
    intro s u net hnet
    simp [callOllama, hnet, hmal]
  refine ⟨hcall, ?_, ?_, ?_⟩
  · intro oracle i p hnet
    simp [callSucceeds, hcall _ _ _ (hnet p.systemPrompt p.userPrompt), Except.isOk,
      Except.toBool]
  · intro config probe oracle nonce content contentType ha hm
    exact ⟨_, generate_ok config probe oracle nonce content contentType ha hm,
      by rw [List.length_mergeSort]; exact runPrompts_length oracle nonce content _ 0⟩
  · intro config probe oracle nonce content customPrompt ha hm hnet
    have hc := hcall customSystemPrompt (customUserPrompt content customPrompt) (oracle 0)
      (hnet _ _)
    simp [processWithCustomPrompt, ha, hm, hc]

/-- C7, witness: the empty-`choices` body, dropped in batch mode and
propagated in custom mode. -/
theorem c7_witness :
    processWithCustomPrompt DEFAULT_AI_CONFIG probeOkFixture oracleMalformedFixture
        nonceFixture "hello" "translate" =
      .error "AI processing failed: Invalid response from Ollama API" :=
  (c7_theorem malformedRespFixture rfl).2.2.2 DEFAULT_AI_CONFIG probeOkFixture
    oracleMalformedFixture nonceFixture "hello" "translate" rfl rfl fun _ _ => rfl

/-! ## Claim C10 -/

/-- C10: the scoring function only ever returns `0.7`, `0.8`, `0.9` or
`1.0`; hence every result of a successful batch has confidence at least
`0.7` and within that four-value set, and the custom-instruction path always
returns exactly `0.8`. -/
theorem c10_theorem :
    (∀ (o t : String) (k : TransformationType),
      calculateConfidence o t k = 0.7 ∨ calculateConfidence o t k = 0.8 ∨
      calculateConfidence o t k = 0.9 ∨ calculateConfidence o t k = 1) ∧
    (∀ (config : AIServiceConfig) (probe : ProbeOutcome) (oracle : Nat → NetBehavior)
      (nonce : Nat → String) (content contentType : String) (l : List AITransformation),
      generateTransformations config probe oracle nonce content contentType = .ok l →
      ∀ t ∈ l, 0.7 ≤ t.confidence ∧
        (t.confidence = 0.7 ∨ t.confidence = 0.8 ∨ t.confidence = 0.9 ∨
          t.confidence = 1)) ∧
    (∀ (config : AIServiceConfig) (probe : ProbeOutcome) (oracle : Nat → NetBehavior)
      (nonce : Nat → String) (content customPrompt : String) (l : List AITransformation),
      processWithCustomPrompt config probe oracle nonce content customPrompt = .ok l →
      ∀ t ∈ l, t.confidence = 0.8) := by
  refine ⟨calcConf_cases, ?_, ?_⟩
  · intro config probe oracle nonce content contentType l h t ht
    unfold generateTransformations at h
    by_cases hcond : (!(checkOllamaStatus config probe).available
        || !(checkOllamaStatus config probe).model) = true
    · rw [if_pos hcond] at h
      exact absurd h (by simp)
    · rw [if_neg hcond] at h
      have hl := (Except.ok.inj h).symm
      subst hl
      have hmem : t ∈ runPrompts oracle nonce content 0
          (getTransformationPrompts content contentType) :=
        (List.mergeSort_perm _ confDesc).mem_iff.mp ht
      obtain ⟨r, k, hconf⟩ := runPrompts_conf oracle nonce content _ 0 t hmem
      rw [hconf]
      exact ⟨(calcConf_range content r k).1, calcConf_cases content r k⟩
  · intro config probe oracle nonce content customPrompt l h t ht
    unfold processWithCustomPrompt at h
    by_cases hcond : (!(checkOllamaStatus config probe).available
        || !(checkOllamaStatus config probe).model) = true
    · rw [if_pos hcond] at h
      exact absurd h (by simp)
    · rw [if_neg hcond] at h
      cases hc : callOllama customSystemPrompt (customUserPrompt content customPrompt)
          (oracle 0) with
      | ok r =>
        rw [hc] at h
        have hl := (Except.ok.inj h).symm
        subst hl
        rcases List.mem_singleton.mp ht with rfl
        rfl
      | error e =>
        rw [hc] at h
        exact absurd h (by simp)

/-- C10, witness: the custom-path conjunct on a backend answering `hola`. -/
theorem c10_witness :
    ∀ t ∈ ([{ id := "custom-w", title := "Custom Transformation",
              description := "translate to Spanish", result := "hola",
              confidence := (0.8 : ℚ), isApplied := false,
              transformationType := TransformationType.enhancement }] :
        List AITransformation),
      t.confidence = 0.8 :=
  c10_theorem.2.2 DEFAULT_AI_CONFIG probeOkFixture oracleHolaFixture nonceFixture
    "hello" "translate to Spanish" _ rfl

/-! ## Substring lemmas -/

/-- A list is a prefix of itself followed by anything. -/
theorem leadsWith_append_self : ∀ (n post : List Char), leadsWith (n ++ post) n = true
  | [], _ => by simp [leadsWith]
  | c :: cs, post => by simp [leadsWith, leadsWith_append_self cs post]

/-- A prefix occurrence is an occurrence. -/
theorem hasSub_of_leadsWith : ∀ (x n : List Char), leadsWith x n = true → hasSub x n = true := by
  intro x n h
  cases x with
  | nil =>
    cases n with
    | nil => rfl
    | cons c cs => simp [leadsWith] at h
  | cons c cs => simp [hasSub, h]

/-- Occurrences survive prepending. -/
theorem hasSub_append_left : ∀ (pre x n : List Char),
    hasSub x n = true → hasSub (pre ++ x) n = true
  | [], _, _, h => h
  | c :: pre', x, n, h => by simp [hasSub, hasSub_append_left pre' x n h]

/-- A middle segment of a concatenation occurs in it. -/
theorem hasSub_decomp (hay pre mid post : List Char) (h : hay = pre ++ (mid ++ post)) :
    hasSub hay mid = true := by
  subst h
  exact hasSub_append_left _ _ _ (hasSub_of_leadsWith _ _ (leadsWith_append_self _ _))

/-! ## Claim C6 -/

/-- C6 (context-snippet processor modelled from the spec, the Rust
`process_with_ai` command being outside src/): the single user prompt embeds
the content as a delimited fenced block, the free-text instruction, and the
context snippets concatenated in caller-supplied order; the processor
consults the backend exactly once (its outcome depends only on the network's
answer to call 0); on success it returns exactly one result whose confidence
is exactly `0.8` regardless of the backend text; and a backend failure
propagates to the caller as a reportable error. -/
theorem c6_theorem (oracle : Nat → NetBehavior) (nonce : Nat → String)
    (content instruction : String) (contextSnippets : List String) :
    jsIncludes (customContextPrompt content instruction contextSnippets)
      ("```\n" ++ content ++ "\n```") = true ∧
    jsIncludes (customContextPrompt content instruction contextSnippets)
      instruction = true ∧
    jsIncludes (customContextPrompt content instruction contextSnippets)
      (contextConcat contextSnippets) = true ∧
    (∀ oracle' : Nat → NetBehavior, (∀ s u, oracle' 0 s u = oracle 0 s u) →
      processCustom oracle' nonce content instruction contextSnippets =
        processCustom oracle nonce content instruction contextSnippets) ∧
    (∀ r, callOllama customSystemPrompt
        (customContextPrompt content instruction contextSnippets) (oracle 0) = .ok r →
      ∃ tr, processCustom oracle nonce content instruction contextSnippets = .ok tr ∧
        tr.confidence = 0.8 ∧ tr.result = jsTrim r) ∧
    (∀ e, callOllama customSystemPrompt
        (customContextPrompt content instruction contextSnippets) (oracle 0) = .error e →
      processCustom oracle nonce content instruction contextSnippets =
        .error ("AI processing failed: " ++ e)) := by
  refine ⟨?_, ?_, ?_, ?_, ?_, ?_⟩
  · exact hasSub_decomp _ "Here is the clipboard content:\n".data _
      (("\n\nUser's request: " ++ instruction ++ "\n\nAdditional context:\n" ++
        contextConcat contextSnippets ++
        "\n\nPlease process the content according to the user's request:").data)
      (by simp [customContextPrompt, String.data_append, List.append_assoc])
  · exact hasSub_decomp _
      (("Here is the clipboard content:\n" ++ ("```\n" ++ content ++ "\n```") ++
        "\n\nUser's request: ").data) _
      (("\n\nAdditional context:\n" ++ contextConcat contextSnippets ++
        "\n\nPlease process the content according to the user's request:").data)
      (by simp [customContextPrompt, String.data_append, List.append_assoc])
  · exact hasSub_decomp _
      (("Here is the clipboard content:\n" ++ ("```\n" ++ content ++ "\n```") ++
        "\n\nUser's request: " ++ instruction ++ "\n\nAdditional context:\n").data) _
      ("\n\nPlease process the content according to the user's request:".data)
      (by simp [customContextPrompt, String.data_append, List.append_assoc])
  · intro oracle' hag
    simp [processCustom, callOllama, hag]
  · intro r hr
    simp only [processCustom, hr]
    exact ⟨_, rfl, rfl, rfl⟩
  · intro e he
    simp [processCustom, he]

/-- C6, witness: a backend answering `hola` yields the single fixed-score
result for a call carrying one context snippet. -/
theorem c6_witness :
    ∃ tr, processCustom oracleHolaFixture nonceFixture "hello" "translate to Spanish"
        ["prior clipboard snippet"] = .ok tr ∧
      tr.confidence = 0.8 ∧ tr.result = jsTrim "hola" :=
  (c6_theorem oracleHolaFixture nonceFixture "hello" "translate to Spanish"
    ["prior clipboard snippet"]).2.2.2.2.1 "hola" rfl

end Wurdump
